import Mathlib

/-!
Verification of the `nvmet` configfs mapping layer (`src/lib.rs`).

The library translates typed entity handles (Subsystem, Namespace, Port, Host)
into configfs directory/file paths and a line-terminated text protocol.  We
shallowly embed the code over an explicit filesystem state: a finite
association list from paths (lists of components, each a list of characters)
to nodes (file with content, directory, or symlink).  Rust's text helpers
(`str::trim`, `str::trim_end_matches`, `u32::to_string`, `str::parse`) are
modelled as executable functions on `List Char`.
-/

set_option autoImplicit false

namespace Nvmet

/-- Convert a Lean string literal to the character-list representation used
throughout the model. -/
def s2c (s : String) : List Char := s.data

/-- Rust's `char::is_whitespace`: the Unicode White_Space code points. -/
def isRustWhitespace (c : Char) : Bool :=
  c.toNat = 0x09 || c.toNat = 0x0A || c.toNat = 0x0B || c.toNat = 0x0C ||
  c.toNat = 0x0D || c.toNat = 0x20 || c.toNat = 0x85 || c.toNat = 0xA0 ||
  c.toNat = 0x1680 || (0x2000 ≤ c.toNat && c.toNat ≤ 0x200A) ||
  c.toNat = 0x2028 || c.toNat = 0x2029 || c.toNat = 0x202F ||
  c.toNat = 0x205F || c.toNat = 0x3000

/-- Rust's `str::trim_start`: drop leading whitespace. -/
def trimStart (s : List Char) : List Char := s.dropWhile isRustWhitespace

/-- Rust's `str::trim_end`: drop trailing whitespace. -/
def trimEnd (s : List Char) : List Char :=
  (s.reverse.dropWhile isRustWhitespace).reverse

/-- Rust's `str::trim`: drop leading and trailing whitespace. -/
def rustTrim (s : List Char) : List Char := trimEnd (trimStart s)

/-- Rust's `str::trim_end_matches('\n')`: drop every trailing newline. -/
def trimEndNewlines (s : List Char) : List Char :=
  (s.reverse.dropWhile (fun c => c == '\n')).reverse

/-- The character for decimal digit `d`. -/
def digitChar (d : Nat) : Char := Char.ofNat (48 + d)

/-- Fueled production of the big-endian decimal digits of `n` in front of
`acc`; the fuel is structurally decreasing and any `fuel > n` is enough. -/
def natDigitCharsAux : Nat → Nat → List Char → List Char
  | _, 0, acc => acc
  | n, fuel + 1, acc =>
    if n < 10 then digitChar n :: acc
    else natDigitCharsAux (n / 10) fuel (digitChar (n % 10) :: acc)

/-- Rust's `u32::to_string` (and the other unsigned widths): the decimal
digits of `n`, most significant first. -/
def natDigitChars (n : Nat) : List Char := natDigitCharsAux n (n + 1) []

/-- Numeric value of a decimal digit character, if it is one. -/
def digitVal? (c : Char) : Option Nat :=
  if 48 ≤ c.toNat ∧ c.toNat ≤ 57 then some (c.toNat - 48) else none

/-- Left-to-right accumulation of a decimal digit string. -/
def parseValAux : List Char → Nat → Option Nat
  | [], a => some a
  | c :: cs, a =>
    match digitVal? c with
    | some d => parseValAux cs (a * 10 + d)
    | none => none

/-- Rust's unsigned `str::parse` before the width check: an optional leading
`+` followed by one or more decimal digits; anything else is an error. -/
def rustParseNat : List Char → Option Nat
  | [] => none
  | c :: rest =>
    if c = '+' then
      match rest with
      | [] => none
      | _ :: _ => parseValAux rest 0
    else parseValAux (c :: rest) 0

/-- Rust's `str::parse::<uN>`: parse a decimal value and fail on overflow of
the width, given as the exclusive bound `2 ^ N`. -/
def rustParseBounded (bound : Nat) (s : List Char) : Option Nat :=
  (rustParseNat s).bind (fun n => if n < bound then some n else none)

/-- A filesystem path, as the list of its components. -/
abbrev Path := List (List Char)

/-- A filesystem node: a regular file with byte content, a directory, or a
symbolic link with a target path. -/
inductive Node where
  | file (content : List Char)
  | dir
  | symlink (target : Path)
deriving DecidableEq, Repr

/-- The filesystem state: a finite association of paths to nodes.  This is
the explicit state threaded through every embedded operation. -/
structure FS where
  entries : List (Path × Node)
deriving DecidableEq, Repr

/-- The `std::io::ErrorKind` values the code distinguishes. -/
inductive IOErrorKind where
  | notFound
  | alreadyExists
  | invalidInput
  | other
deriving DecidableEq, Repr

/-- The error type of the generic `read` helper in `lib.rs`: an I/O error or
a parse error. -/
inductive ReadErr where
  | io (e : IOErrorKind)
  | parse
deriving DecidableEq, Repr

/-- Outcome of a Rust computation that may also abort via `unwrap()`:
a value, a returned error, or a panic. -/
inductive PResult (ε α : Type) where
  | ok (a : α)
  | err (e : ε)
  | panicked
deriving DecidableEq, Repr

/-- Decidable equality for `Except`, used to evaluate closed statements
about embedded operations. -/
instance {ε α : Type} [DecidableEq ε] [DecidableEq α] :
    DecidableEq (Except ε α) := fun a b =>
  match a, b with
  | Except.ok x, Except.ok y =>
    if h : x = y then isTrue (by rw [h])
    else isFalse (fun hh => h (Except.ok.inj hh))
  | Except.ok _, Except.error _ => isFalse (fun hh => Except.noConfusion hh)
  | Except.error _, Except.ok _ => isFalse (fun hh => Except.noConfusion hh)
  | Except.error e, Except.error f =>
    if h : e = f then isTrue (by rw [h])
    else isFalse (fun hh => h (Except.error.inj hh))

/-- Look up the node at a path. -/
def FS.node (fs : FS) (p : Path) : Option Node :=
  (fs.entries.find? (fun e => e.1 == p)).map (fun e => e.2)

/-- Replace (or insert) the node at a path. -/
def FS.set (fs : FS) (p : Path) (n : Node) : FS :=
  ⟨(p, n) :: fs.entries.filter (fun e => !(e.1 == p))⟩

/-- Remove the node at a path. -/
def FS.remove (fs : FS) (p : Path) : FS :=
  ⟨fs.entries.filter (fun e => !(e.1 == p))⟩

/-- `q` lies strictly below `p` in the tree. -/
def isUnder (q p : Path) : Bool :=
  p.length < q.length && p == q.take p.length

/-- Some entry lies strictly below `p` (so `p` is a non-empty directory). -/
def FS.hasDescendant (fs : FS) (p : Path) : Bool :=
  fs.entries.any (fun e => isUnder e.1 p)

/-- `std::fs::read_to_string`: the content of the regular file at `p`. -/
def FS.readToString (fs : FS) (p : Path) : Except IOErrorKind (List Char) :=
  match fs.node p with
  | some (Node.file c) => Except.ok c
  | some _ => Except.error IOErrorKind.other
  | none => Except.error IOErrorKind.notFound

/-- `std::fs::File::create` followed by `write_all`: truncate-create the file
at `p` (its parent must be a directory, and `p` must not be a directory) and
write `content`. -/
def FS.fileCreateWrite (fs : FS) (p : Path) (content : List Char) :
    Except IOErrorKind FS :=
  match fs.node p.dropLast with
  | some Node.dir =>
    match fs.node p with
    | some Node.dir => Except.error IOErrorKind.other
    | _ => Except.ok (fs.set p (Node.file content))
  | _ => Except.error IOErrorKind.notFound

/-- `std::fs::create_dir`: exclusive, non-recursive directory creation. -/
def FS.createDir (fs : FS) (p : Path) : Except IOErrorKind FS :=
  if (fs.node p).isSome then Except.error IOErrorKind.alreadyExists
  else
    match fs.node p.dropLast with
    | some Node.dir => Except.ok (fs.set p Node.dir)
    | _ => Except.error IOErrorKind.notFound

/-- All proper initial segments of a path (the root included). -/
def ancestorsOf : Path → List Path
  | [] => []
  | c :: rest => [] :: (ancestorsOf rest).map (fun q => c :: q)

/-- Create every missing intermediate directory on the way to `p`. -/
def FS.mkParents (fs : FS) (p : Path) : FS :=
  ⟨(ancestorsOf p).filterMap
      (fun q => if q ≠ [] ∧ fs.node q = none then some (q, Node.dir) else none)
    ++ fs.entries⟩

/-- `std::fs::DirBuilder::new().recursive(true).create`, i.e.
`std::fs::create_dir_all`: succeeds without change when `p` is already a
directory, fails with already-exists when `p` is a non-directory, and
otherwise creates `p` together with its missing intermediates. -/
def FS.createDirAll (fs : FS) (p : Path) : Except IOErrorKind FS :=
  match fs.node p with
  | some Node.dir => Except.ok fs
  | some _ => Except.error IOErrorKind.alreadyExists
  | none => Except.ok ((fs.mkParents p).set p Node.dir)

/-- `std::fs::remove_dir`: remove the directory at `p`; fails when `p` is
absent, not a directory, or non-empty. -/
def FS.removeDir (fs : FS) (p : Path) : Except IOErrorKind FS :=
  match fs.node p with
  | none => Except.error IOErrorKind.notFound
  | some Node.dir =>
    if fs.hasDescendant p then Except.error IOErrorKind.other
    else Except.ok (fs.remove p)
  | some _ => Except.error IOErrorKind.other

/-- `std::fs::read_link`: the target of the symlink at `p`; not-found when
`p` is absent, invalid-input when `p` is not a symlink. -/
def FS.readLink (fs : FS) (p : Path) : Except IOErrorKind Path :=
  match fs.node p with
  | some (Node.symlink t) => Except.ok t
  | some _ => Except.error IOErrorKind.invalidInput
  | none => Except.error IOErrorKind.notFound

/-- `std::path::Path::try_exists`: a successful presence probe. -/
def FS.tryE (fs : FS) (p : Path) : Except IOErrorKind Bool :=
  Except.ok (fs.node p).isSome

/-- The configfs root `/sys/kernel/config/nvmet/` (`CONFIGFS_DIR`). -/
def nvmetRoot : Path := [s2c "sys", s2c "kernel", s2c "config", s2c "nvmet"]

/-- The generic `read` helper of `lib.rs`: read the file to a string, trim
it, and parse it, wrapping failures as `Io` or `Parse`. -/
def readAttr {α : Type} (parse : List Char → Option α) (fs : FS) (p : Path) :
    Except ReadErr α :=
  match fs.readToString p with
  | Except.error e => Except.error (ReadErr.io e)
  | Except.ok c =>
    match parse (rustTrim c) with
    | some v => Except.ok v
    | none => Except.error ReadErr.parse

/-- A Namespace handle: it stores only its configfs path (`lib.rs` line 17). -/
structure Namespace where
  path : Path
deriving DecidableEq, Repr

/-- A Subsystem handle: it stores only its NQN (`lib.rs` line 111). -/
structure Subsystem where
  nqn : List Char
deriving DecidableEq, Repr

/-- A Port handle: it stores only its numeric id (`lib.rs` line 285). -/
structure Port where
  id : Nat
deriving DecidableEq, Repr

/-- A Host handle: it stores only its NQN (`lib.rs` line 408). -/
structure Host where
  nqn : List Char
deriving DecidableEq, Repr

/-- `Subsystem::path`: `<root>/subsystems/<nqn>`. -/
def Subsystem.path (s : Subsystem) : Path :=
  nvmetRoot ++ [s2c "subsystems", s.nqn]

/-- `Port::path`: `<root>/ports/<id>`. -/
def Port.path (p : Port) : Path :=
  nvmetRoot ++ [s2c "ports", natDigitChars p.id]

/-- `Host::path`: `<root>/hosts/<nqn>`. -/
def Host.path (h : Host) : Path :=
  nvmetRoot ++ [s2c "hosts", h.nqn]

/-- `Namespace::set_enable`: write `"1\n"` or `"0\n"` to `enable`. -/
def Namespace.set_enable (ns : Namespace) (value : Bool) (fs : FS) :
    Except IOErrorKind FS :=
  fs.fileCreateWrite (ns.path ++ [s2c "enable"])
    (if value then s2c "1\n" else s2c "0\n")

/-- `Namespace::enable`: `read::<u8>` of `enable`, mapped through `v == 1`. -/
def Namespace.enable (ns : Namespace) (fs : FS) : Except ReadErr Bool :=
  (readAttr (rustParseBounded 256) fs (ns.path ++ [s2c "enable"])).map
    (fun v => v == 1)

/-- `Namespace::set_ana_grpid`: write the decimal value plus a newline. -/
def Namespace.set_ana_grpid (ns : Namespace) (value : Nat) (fs : FS) :
    Except IOErrorKind FS :=
  fs.fileCreateWrite (ns.path ++ [s2c "ana_grpid"])
    (natDigitChars value ++ ['\n'])

/-- `Namespace::ana_grpid`: `read_to_string(..).unwrap()`, strip trailing
newlines, `parse::<u32>().unwrap()`; both unwraps panic on failure. -/
def Namespace.ana_grpid (ns : Namespace) (fs : FS) : PResult IOErrorKind Nat :=
  match fs.readToString (ns.path ++ [s2c "ana_grpid"]) with
  | Except.error _ => PResult.panicked
  | Except.ok c =>
    match rustParseBounded 4294967296 (trimEndNewlines c) with
    | some v => PResult.ok v
    | none => PResult.panicked

/-- `Namespace::set_device_nguid`: write the string plus a newline. -/
def Namespace.set_device_nguid (ns : Namespace) (value : List Char) (fs : FS) :
    Except IOErrorKind FS :=
  fs.fileCreateWrite (ns.path ++ [s2c "device_nguid"]) (value ++ ['\n'])

/-- `Namespace::device_nguid`: the generic `read` at `String` (trim, no
further parsing). -/
def Namespace.device_nguid (ns : Namespace) (fs : FS) :
    Except ReadErr (List Char) :=
  readAttr (fun s => some s) fs (ns.path ++ [s2c "device_nguid"])

/-- `Namespace::set_device_uuid`: write the string plus a newline. -/
def Namespace.set_device_uuid (ns : Namespace) (value : List Char) (fs : FS) :
    Except IOErrorKind FS :=
  fs.fileCreateWrite (ns.path ++ [s2c "device_uuid"]) (value ++ ['\n'])

/-- `Namespace::device_uuid`: the generic `read` at `String`. -/
def Namespace.device_uuid (ns : Namespace) (fs : FS) :
    Except ReadErr (List Char) :=
  readAttr (fun s => some s) fs (ns.path ++ [s2c "device_uuid"])

/-- `Namespace::set_device_path`: write the string plus a newline (the
`(null)` sentinel is not escaped). -/
def Namespace.set_device_path (ns : Namespace) (value : List Char) (fs : FS) :
    Except IOErrorKind FS :=
  fs.fileCreateWrite (ns.path ++ [s2c "device_path"]) (value ++ ['\n'])

/-- `Namespace::device_path`: `read_to_string(..).unwrap()` (panics on I/O
failure); content exactly `"(null)\n"` decodes to `None`, any other content
to `Some` of the content with trailing newlines stripped. -/
def Namespace.device_path (ns : Namespace) (fs : FS) :
    PResult IOErrorKind (Option (List Char)) :=
  match fs.readToString (ns.path ++ [s2c "device_path"]) with
  | Except.error _ => PResult.panicked
  | Except.ok c =>
    if c = s2c "(null)\n" then PResult.ok none
    else PResult.ok (some (trimEndNewlines c))

/-- `Subsystem::new`: exclusive creation of the subsystem directory. -/
def Subsystem.new (nqn : List Char) (fs : FS) :
    Except IOErrorKind (Subsystem × FS) :=
  match fs.createDir (Subsystem.path ⟨nqn⟩) with
  | Except.ok fs' => Except.ok (⟨nqn⟩, fs')
  | Except.error e => Except.error e

/-- `Subsystem::open` in state-passing form: the source only constructs the
handle, so the state threads through untouched. -/
def Subsystem.openSt (nqn : List Char) (fs : FS) : Subsystem × FS :=
  (⟨nqn⟩, fs)

/-- `Subsystem::exists`: `try_exists` on the subsystem path. -/
def Subsystem.existsFS (nqn : List Char) (fs : FS) : Except IOErrorKind Bool :=
  fs.tryE (Subsystem.path ⟨nqn⟩)

/-- `Subsystem::delete`: `remove_dir` on the subsystem path. -/
def Subsystem.delete (nqn : List Char) (fs : FS) : Except IOErrorKind FS :=
  fs.removeDir (Subsystem.path ⟨nqn⟩)

/-- `Subsystem::create_namespace`: exclusive creation of
`namespaces/<nsid>` under the subsystem, returning the bound handle. -/
def Subsystem.create_namespace (s : Subsystem) (nsid : Nat) (fs : FS) :
    Except IOErrorKind (Namespace × FS) :=
  match fs.createDir (s.path ++ [s2c "namespaces", natDigitChars nsid]) with
  | Except.ok fs' =>
    Except.ok (⟨s.path ++ [s2c "namespaces", natDigitChars nsid]⟩, fs')
  | Except.error e => Except.error e

/-- `Subsystem::set_attr_allow_any_host`: write `"1\n"` or `"0\n"`. -/
def Subsystem.set_attr_allow_any_host (s : Subsystem) (value : Bool)
    (fs : FS) : Except IOErrorKind FS :=
  fs.fileCreateWrite (s.path ++ [s2c "attr_allow_any_host"])
    (if value then s2c "1\n" else s2c "0\n")

/-- `Subsystem::attr_allow_any_host`: `read_to_string(..).unwrap()` (panics
on I/O failure), then compare the raw content with `"1\n"`. -/
def Subsystem.attr_allow_any_host (s : Subsystem) (fs : FS) :
    PResult IOErrorKind Bool :=
  match fs.readToString (s.path ++ [s2c "attr_allow_any_host"]) with
  | Except.error _ => PResult.panicked
  | Except.ok c => PResult.ok (c == s2c "1\n")

/-- `Subsystem::set_attr_cntlid_max`: write the decimal value plus newline. -/
def Subsystem.set_attr_cntlid_max (s : Subsystem) (value : Nat) (fs : FS) :
    Except IOErrorKind FS :=
  fs.fileCreateWrite (s.path ++ [s2c "attr_cntlid_max"])
    (natDigitChars value ++ ['\n'])

/-- `Subsystem::attr_cntlid_max`: unwrap-read, strip trailing newlines,
`parse::<u16>().unwrap()`. -/
def Subsystem.attr_cntlid_max (s : Subsystem) (fs : FS) :
    PResult IOErrorKind Nat :=
  match fs.readToString (s.path ++ [s2c "attr_cntlid_max"]) with
  | Except.error _ => PResult.panicked
  | Except.ok c =>
    match rustParseBounded 65536 (trimEndNewlines c) with
    | some v => PResult.ok v
    | none => PResult.panicked

/-- `Subsystem::set_attr_cntlid_min`: write the decimal value plus newline. -/
def Subsystem.set_attr_cntlid_min (s : Subsystem) (value : Nat) (fs : FS) :
    Except IOErrorKind FS :=
  fs.fileCreateWrite (s.path ++ [s2c "attr_cntlid_min"])
    (natDigitChars value ++ ['\n'])

/-- `Subsystem::attr_cntlid_min`: unwrap-read, strip trailing newlines,
`parse::<u16>().unwrap()`. -/
def Subsystem.attr_cntlid_min (s : Subsystem) (fs : FS) :
    PResult IOErrorKind Nat :=
  match fs.readToString (s.path ++ [s2c "attr_cntlid_min"]) with
  | Except.error _ => PResult.panicked
  | Except.ok c =>
    match rustParseBounded 65536 (trimEndNewlines c) with
    | some v => PResult.ok v
    | none => PResult.panicked

/-- `Subsystem::set_attr_model`: write the string plus a newline. -/
def Subsystem.set_attr_model (s : Subsystem) (value : List Char) (fs : FS) :
    Except IOErrorKind FS :=
  fs.fileCreateWrite (s.path ++ [s2c "attr_model"]) (value ++ ['\n'])

/-- `Subsystem::attr_model`: unwrap-read, then strip trailing newlines. -/
def Subsystem.attr_model (s : Subsystem) (fs : FS) :
    PResult IOErrorKind (List Char) :=
  match fs.readToString (s.path ++ [s2c "attr_model"]) with
  | Except.error _ => PResult.panicked
  | Except.ok c => PResult.ok (trimEndNewlines c)

/-- `Subsystem::set_attr_serial`: write the string plus a newline. -/
def Subsystem.set_attr_serial (s : Subsystem) (value : List Char) (fs : FS) :
    Except IOErrorKind FS :=
  fs.fileCreateWrite (s.path ++ [s2c "attr_serial"]) (value ++ ['\n'])

/-- `Subsystem::attr_serial`: unwrap-read, then strip trailing newlines. -/
def Subsystem.attr_serial (s : Subsystem) (fs : FS) :
    PResult IOErrorKind (List Char) :=
  match fs.readToString (s.path ++ [s2c "attr_serial"]) with
  | Except.error _ => PResult.panicked
  | Except.ok c => PResult.ok (trimEndNewlines c)

/-- `Port::new`: `DirBuilder::new().recursive(true).create` on the port
path, i.e. `create_dir_all`. -/
def Port.new (id : Nat) (fs : FS) : Except IOErrorKind (Port × FS) :=
  match fs.createDirAll (Port.path ⟨id⟩) with
  | Except.ok fs' => Except.ok (⟨id⟩, fs')
  | Except.error e => Except.error e

/-- `Port::open` in state-passing form: the source only constructs the
handle, so the state threads through untouched. -/
def Port.openSt (id : Nat) (fs : FS) : Port × FS :=
  (⟨id⟩, fs)

/-- `Port::exists`: `try_exists` on the port path. -/
def Port.existsFS (id : Nat) (fs : FS) : Except IOErrorKind Bool :=
  fs.tryE (Port.path ⟨id⟩)

/-- `Port::delete`: `remove_dir` on the port path. -/
def Port.delete (id : Nat) (fs : FS) : Except IOErrorKind FS :=
  fs.removeDir (Port.path ⟨id⟩)

/-- `Port::has_subsystem`: `read_link` on `subsystems/<nqn>`; success means
`true`, a not-found failure means `false`, any other failure propagates. -/
def Port.has_subsystem (p : Port) (subsys : Subsystem) (fs : FS) :
    Except IOErrorKind Bool :=
  match fs.readLink (p.path ++ [s2c "subsystems", subsys.nqn]) with
  | Except.ok _ => Except.ok true
  | Except.error e =>
    if e = IOErrorKind.notFound then Except.ok false
    else Except.error e

/-- `Port::set_addr_adrfam`: write the string plus a newline. -/
def Port.set_addr_adrfam (p : Port) (value : List Char) (fs : FS) :
    Except IOErrorKind FS :=
  fs.fileCreateWrite (p.path ++ [s2c "addr_adrfam"]) (value ++ ['\n'])

/-- `Port::addr_adrfam`: the generic `read` at `String`. -/
def Port.addr_adrfam (p : Port) (fs : FS) : Except ReadErr (List Char) :=
  readAttr (fun s => some s) fs (p.path ++ [s2c "addr_adrfam"])

/-- `Port::set_addr_traddr`: write the string plus a newline. -/
def Port.set_addr_traddr (p : Port) (value : List Char) (fs : FS) :
    Except IOErrorKind FS :=
  fs.fileCreateWrite (p.path ++ [s2c "addr_traddr"]) (value ++ ['\n'])

/-- `Port::addr_traddr`: the generic `read` at `String`. -/
def Port.addr_traddr (p : Port) (fs : FS) : Except ReadErr (List Char) :=
  readAttr (fun s => some s) fs (p.path ++ [s2c "addr_traddr"])

/-- `Port::set_addr_trsvcid`: write the string plus a newline. -/
def Port.set_addr_trsvcid (p : Port) (value : List Char) (fs : FS) :
    Except IOErrorKind FS :=
  fs.fileCreateWrite (p.path ++ [s2c "addr_trsvcid"]) (value ++ ['\n'])

/-- `Port::addr_trsvcid`: the generic `read` at `String`. -/
def Port.addr_trsvcid (p : Port) (fs : FS) : Except ReadErr (List Char) :=
  readAttr (fun s => some s) fs (p.path ++ [s2c "addr_trsvcid"])

/-- `Port::set_addr_trtype`: write the string plus a newline. -/
def Port.set_addr_trtype (p : Port) (value : List Char) (fs : FS) :
    Except IOErrorKind FS :=
  fs.fileCreateWrite (p.path ++ [s2c "addr_trtype"]) (value ++ ['\n'])

/-- `Port::addr_trtype`: the generic `read` at `String`. -/
def Port.addr_trtype (p : Port) (fs : FS) : Except ReadErr (List Char) :=
  readAttr (fun s => some s) fs (p.path ++ [s2c "addr_trtype"])

/-- `Host::new`: exclusive creation of the host directory. -/
def Host.new (nqn : List Char) (fs : FS) : Except IOErrorKind (Host × FS) :=
  match fs.createDir (Host.path ⟨nqn⟩) with
  | Except.ok fs' => Except.ok (⟨nqn⟩, fs')
  | Except.error e => Except.error e

/-- `Host::exists`: `try_exists` on the host path. -/
def Host.existsFS (nqn : List Char) (fs : FS) : Except IOErrorKind Bool :=
  fs.tryE (Host.path ⟨nqn⟩)

/-- `Host::delete`: `remove_dir` on the host path. -/
def Host.delete (nqn : List Char) (fs : FS) : Except IOErrorKind FS :=
  fs.removeDir (Host.path ⟨nqn⟩)

theorem find?_filter_of_ne (l : List (Path × Node)) (p q : Path) (h : q ≠ p) :
    List.find? (fun e => e.1 == q) (l.filter (fun e => !(e.1 == p))) =
      List.find? (fun e => e.1 == q) l := by
  have hpq : (p == q) = false := by
    simp only [beq_eq_false_iff_ne]
    exact fun hh => h hh.symm
  have hqp : (q == p) = false := by
    simp only [beq_eq_false_iff_ne]
    exact h
  induction l with
  | nil => rfl
  | cons e rest ih =>
    by_cases hp : e.1 = p
    · simp [List.filter_cons, hp, List.find?_cons, hpq, ih]
    · by_cases hq : e.1 = q
      · simp [List.filter_cons, hp, List.find?_cons, hq, hqp]
      · simp [List.filter_cons, hp, List.find?_cons, hq, ih]

theorem find?_filter_self (l : List (Path × Node)) (p : Path) :
    List.find? (fun e => e.1 == p) (l.filter (fun e => !(e.1 == p))) =
      none := by
  induction l with
  | nil => rfl
  | cons e rest ih =>
    by_cases hp : e.1 = p
    · simp [List.filter_cons, hp, ih]
    · simp [List.filter_cons, hp, List.find?_cons, ih]

theorem FS.node_set_self (fs : FS) (p : Path) (n : Node) :
    (fs.set p n).node p = some n := by
  simp [FS.set, FS.node, List.find?_cons]

theorem FS.node_set_ne (fs : FS) {p q : Path} (n : Node) (h : q ≠ p) :
    (fs.set p n).node q = fs.node q := by
  have hpq : (p == q) = false := by
    simp only [beq_eq_false_iff_ne]
    exact fun hh => h hh.symm
  simp [FS.set, FS.node, List.find?_cons, hpq, find?_filter_of_ne _ _ _ h]

theorem FS.node_remove_self (fs : FS) (p : Path) :
    (fs.remove p).node p = none := by
  simp [FS.remove, FS.node, find?_filter_self]

theorem FS.readToString_set_self (fs : FS) (p : Path) (c : List Char) :
    (fs.set p (Node.file c)).readToString p = Except.ok c := by
  unfold FS.readToString
  rw [FS.node_set_self]

theorem fileCreateWrite_ok {fs fs' : FS} {p : Path} {content : List Char}
    (h : fs.fileCreateWrite p content = Except.ok fs') :
    fs' = fs.set p (Node.file content) := by
  unfold FS.fileCreateWrite at h
  split at h
  · split at h
    · exact Except.noConfusion h
    · exact (Except.ok.inj h).symm
  · exact Except.noConfusion h

theorem digitVal?_digitChar {d : Nat} (h : d < 10) :
    digitVal? (digitChar d) = some d := by
  interval_cases d <;> decide

theorem digitChar_ne_plus {d : Nat} (h : d < 10) : digitChar d ≠ '+' := by
  interval_cases d <;> decide

theorem digitChar_ne_newline {d : Nat} (h : d < 10) : digitChar d ≠ '\n' := by
  interval_cases d <;> decide

/-- Helper for the decimal round trip: `10 ^ (number of digits of n)`. -/
def tenPow (n : Nat) : Nat :=
  if h : n < 10 then 10 else 10 * tenPow (n / 10)
termination_by n
decreasing_by exact Nat.div_lt_self (by omega) (by omega)

theorem parseValAux_natDigitCharsAux :
    ∀ fuel n acc a, n < fuel →
      parseValAux (natDigitCharsAux n fuel acc) a =
        parseValAux acc (a * tenPow n + n) := by
  intro fuel
  induction fuel with
  | zero => intro n acc a h; omega
  | succ fuel ih =>
    intro n acc a h
    by_cases h10 : n < 10
    · simp only [natDigitCharsAux, if_pos h10, parseValAux,
        digitVal?_digitChar h10]
      rw [tenPow, dif_pos h10]
    · simp only [natDigitCharsAux, if_neg h10]
      rw [ih (n / 10) _ a (by omega)]
      simp only [parseValAux, digitVal?_digitChar (Nat.mod_lt _ (by omega))]
      congr 1
      have hT : tenPow n = 10 * tenPow (n / 10) := by
        rw [tenPow]
        rw [dif_neg h10]
      rw [hT]
      have hdm : 10 * (n / 10) + n % 10 = n := Nat.div_add_mod n 10
      ring_nf
      omega

theorem natDigitCharsAux_shape :
    ∀ fuel n acc, n < fuel → ∃ k t, k < 10 ∧
      natDigitCharsAux n fuel acc = digitChar k :: t := by
  intro fuel
  induction fuel with
  | zero => intro n acc h; omega
  | succ fuel ih =>
    intro n acc h
    by_cases h10 : n < 10
    · exact ⟨n, acc, h10, by simp [natDigitCharsAux, h10]⟩
    · obtain ⟨k, t, hk, heq⟩ := ih (n / 10) (digitChar (n % 10) :: acc)
        (by omega)
      exact ⟨k, t, hk, by simp [natDigitCharsAux, h10, heq]⟩

theorem rustParseNat_natDigitChars (n : Nat) :
    rustParseNat (natDigitChars n) = some n := by
  obtain ⟨k, t, hk, heq⟩ := natDigitCharsAux_shape (n + 1) n [] (by omega)
  unfold natDigitChars
  rw [heq]
  simp only [rustParseNat]
  rw [if_neg (digitChar_ne_plus hk)]
  rw [← heq]
  rw [parseValAux_natDigitCharsAux (n + 1) n [] 0 (by omega)]
  simp [parseValAux]

theorem rustParseBounded_natDigitChars {B n : Nat} (h : n < B) :
    rustParseBounded B (natDigitChars n) = some n := by
  simp [rustParseBounded, rustParseNat_natDigitChars, h]

theorem mem_natDigitCharsAux :
    ∀ fuel n acc c, c ∈ natDigitCharsAux n fuel acc →
      c ∈ acc ∨ ∃ d, d < 10 ∧ c = digitChar d := by
  intro fuel
  induction fuel with
  | zero => intro n acc c hc; exact Or.inl hc
  | succ fuel ih =>
    intro n acc c hc
    by_cases h10 : n < 10
    · simp only [natDigitCharsAux, if_pos h10, List.mem_cons] at hc
      rcases hc with h | h
      · exact Or.inr ⟨n, h10, h⟩
      · exact Or.inl h
    · simp only [natDigitCharsAux, if_neg h10] at hc
      rcases ih (n / 10) _ c hc with h | h
      · rcases List.mem_cons.mp h with h' | h'
        · exact Or.inr ⟨n % 10, Nat.mod_lt _ (by omega), h'⟩
        · exact Or.inl h'
      · exact Or.inr h

theorem natDigitChars_ne_newline {n : Nat} : '\n' ∉ natDigitChars n := by
  intro hmem
  rcases mem_natDigitCharsAux (n + 1) n [] '\n' hmem with h | ⟨d, hd, h⟩
  · simp at h
  · exact digitChar_ne_newline hd h.symm

theorem dropWhile_newline_eq_self {l : List Char} (h : '\n' ∉ l) :
    l.dropWhile (fun c => c == '\n') = l := by
  cases l with
  | nil => rfl
  | cons c t =>
    have hc : (c == '\n') = false := by
      simp only [beq_eq_false_iff_ne]
      intro hc
      exact h (by simp [hc])
    simp [List.dropWhile_cons, hc]

theorem trimEndNewlines_snoc {s : List Char} (h : '\n' ∉ s) :
    trimEndNewlines (s ++ ['\n']) = s := by
  unfold trimEndNewlines
  rw [List.reverse_append]
  simp only [List.reverse_cons, List.reverse_nil, List.nil_append,
    List.singleton_append]
  rw [List.dropWhile_cons]
  simp only [show ('\n' == '\n') = true from rfl, if_true]
  rw [dropWhile_newline_eq_self (by simpa using h)]
  exact List.reverse_reverse s

theorem length_dropWhile_le (p : Char → Bool) (l : List Char) :
    (l.dropWhile p).length ≤ l.length := by
  induction l with
  | nil => simp
  | cons c t ih =>
    rw [List.dropWhile_cons]
    split
    · exact Nat.le_succ_of_le ih
    · simp

theorem ws_false_of_trimStart_cons {c : Char} {t : List Char}
    (h : trimStart (c :: t) = c :: t) : isRustWhitespace c = false := by
  by_contra hb
  have hb' : isRustWhitespace c = true := by
    revert hb
    cases isRustWhitespace c <;> simp
  unfold trimStart at h
  rw [List.dropWhile_cons, if_pos hb'] at h
  have hl := congrArg List.length h
  have hle := length_dropWhile_le isRustWhitespace t
  simp at hl
  omega

theorem trimEnd_snoc_newline (s : List Char) :
    trimEnd (s ++ ['\n']) = trimEnd s := by
  unfold trimEnd
  rw [List.reverse_append]
  simp only [List.reverse_cons, List.reverse_nil, List.nil_append,
    List.singleton_append]
  rw [List.dropWhile_cons,
    if_pos (show isRustWhitespace '\n' = true from by decide)]

theorem rustTrim_snoc_newline {s : List Char}
    (h1 : trimStart s = s) (h2 : trimEnd s = s) :
    rustTrim (s ++ ['\n']) = s := by
  unfold rustTrim
  cases s with
  | nil => decide
  | cons c t =>
    have hc := ws_false_of_trimStart_cons h1
    have hstart : trimStart (c :: t ++ ['\n']) = c :: t ++ ['\n'] := by
      unfold trimStart
      rw [List.cons_append, List.dropWhile_cons, if_neg (by simp [hc])]
    rw [hstart, trimEnd_snoc_newline, h2]

/-- Existing subsystem NQN used by the concrete states below. -/
def nqA : List Char := s2c "nqn.a"

/-- A subsystem NQN absent from the concrete states below. -/
def nqB : List Char := s2c "nqn.b"

/-- Handle of the existing subsystem. -/
def subA : Subsystem := ⟨nqA⟩

/-- Handle of namespace `1` of the existing subsystem. -/
def nsA : Namespace := ⟨Subsystem.path ⟨nqA⟩ ++ [s2c "namespaces", s2c "1"]⟩

/-- Handle of the existing port `1`. -/
def portA : Port := ⟨1⟩

/-- A concrete filesystem state: the category directories, one subsystem
with one namespace, one empty subsystem, one port, and one host; no
attribute files. -/
def fsBase : FS := ⟨[
  (nvmetRoot ++ [s2c "subsystems"], Node.dir),
  (nvmetRoot ++ [s2c "ports"], Node.dir),
  (nvmetRoot ++ [s2c "hosts"], Node.dir),
  (Subsystem.path ⟨nqA⟩, Node.dir),
  (Subsystem.path ⟨nqA⟩ ++ [s2c "namespaces"], Node.dir),
  (nsA.path, Node.dir),
  (Port.path ⟨1⟩, Node.dir),
  (Subsystem.path ⟨s2c "nqn.del"⟩, Node.dir),
  (Host.path ⟨s2c "h2"⟩, Node.dir)]⟩

/-- Extract the successor state of a lifecycle/setter step (used only to
name concrete states in closed statements). -/
def exFS (r : Except IOErrorKind FS) (d : FS) : FS :=
  match r with
  | Except.ok f => f
  | Except.error _ => d

/-- C1: `Port::new(id)` on a state in which the port directory already
exists does not fail with an already-exists error: because the source uses
`DirBuilder::new().recursive(true)` (`create_dir_all` semantics), it
returns success and leaves the state unchanged, contradicting the claim and
the function's own doc comment. -/
theorem c1_port_new_existing_dir_succeeds (fs : FS) (id : Nat)
    (h : fs.node (Port.path ⟨id⟩) = some Node.dir) :
    Port.new id fs = Except.ok (⟨id⟩, fs) := by
  unfold Port.new FS.createDirAll
  rw [h]

/-- Witness for C1 at the concrete state `fsBase`, in which port `1`
already exists. -/
theorem c1_port_new_existing_dir_succeeds_witness :
    fsBase.node (Port.path ⟨1⟩) = some Node.dir ∧
    Port.new 1 fsBase = Except.ok (⟨1⟩, fsBase) :=
  ⟨by decide, c1_port_new_existing_dir_succeeds fsBase 1 (by decide)⟩

/-- C2: at a state where every attribute file is absent, the generic-read
getter `enable` does return an `Io` error, but the unwrap-based getters
(`ana_grpid`, `device_path`, `attr_allow_any_host`, `attr_cntlid_min`,
`attr_cntlid_max`, `attr_model`, `attr_serial`) panic instead of returning
an error result, contradicting the claim. -/
theorem c2_unwrap_getters_panic_on_missing_file :
    nsA.enable fsBase = Except.error (ReadErr.io IOErrorKind.notFound) ∧
    nsA.ana_grpid fsBase = PResult.panicked ∧
    nsA.device_path fsBase = PResult.panicked ∧
    subA.attr_allow_any_host fsBase = PResult.panicked ∧
    subA.attr_cntlid_min fsBase = PResult.panicked ∧
    subA.attr_cntlid_max fsBase = PResult.panicked ∧
    subA.attr_model fsBase = PResult.panicked ∧
    subA.attr_serial fsBase = PResult.panicked := by
  refine ⟨rfl, rfl, rfl, rfl, rfl, rfl, rfl, rfl⟩

/-- C9: handle construction (`Subsystem::open`, `Port::open`) performs no
filesystem operation: in state-passing form it cannot fail, returns the
state unchanged, and only records the identity. -/
theorem c9_open_touches_no_state (fs : FS) (nqn : List Char) (id : Nat) :
    Subsystem.openSt nqn fs = (⟨nqn⟩, fs) ∧
    Port.openSt id fs = (⟨id⟩, fs) :=
  ⟨rfl, rfl⟩

/-- C6: `has_subsystem` returns `Ok false` when the symlink probe fails
with not-found, `Ok true` when the symlink is present, and propagates any
other probe failure as an error. -/
theorem c6_has_subsystem_link_probe (fs : FS) (p : Port) (s : Subsystem) :
    (fs.node (p.path ++ [s2c "subsystems", s.nqn]) = none →
      p.has_subsystem s fs = Except.ok false) ∧
    (∀ t, fs.node (p.path ++ [s2c "subsystems", s.nqn]) =
        some (Node.symlink t) → p.has_subsystem s fs = Except.ok true) ∧
    (∀ e, fs.readLink (p.path ++ [s2c "subsystems", s.nqn]) =
        Except.error e → e ≠ IOErrorKind.notFound →
      p.has_subsystem s fs = Except.error e) := by
  refine ⟨?_, ?_, ?_⟩
  · intro h
    simp [Port.has_subsystem, FS.readLink, h]
  · intro t h
    simp [Port.has_subsystem, FS.readLink, h]
  · intro e h he
    simp [Port.has_subsystem, h, he]

/-- The state `fsBase` with the port-to-subsystem symlink present. -/
def fsLink : FS :=
  fsBase.set (Port.path ⟨1⟩ ++ [s2c "subsystems", nqA])
    (Node.symlink (Subsystem.path ⟨nqA⟩))

/-- The state `fsBase` with a directory where the symlink is probed. -/
def fsLinkDir : FS :=
  fsBase.set (Port.path ⟨1⟩ ++ [s2c "subsystems", nqA]) Node.dir

/-- Witness for C6: absent link gives `Ok false`, present symlink gives
`Ok true`, and a non-symlink node propagates the invalid-input error. -/
theorem c6_has_subsystem_link_probe_witness :
    portA.has_subsystem subA fsBase = Except.ok false ∧
    portA.has_subsystem subA fsLink = Except.ok true ∧
    portA.has_subsystem subA fsLinkDir =
      Except.error IOErrorKind.invalidInput := by
  refine ⟨?_, ?_, ?_⟩
  · exact (c6_has_subsystem_link_probe fsBase portA subA).1 (by decide)
  · exact (c6_has_subsystem_link_probe fsLink portA subA).2.1
      (Subsystem.path ⟨nqA⟩) (by decide)
  · exact (c6_has_subsystem_link_probe fsLinkDir portA subA).2.2
      IOErrorKind.invalidInput (by decide) (by decide)

/-- C5 (amended): when the `device_path` file holds content `c`, the getter
returns `None` iff `c` is exactly `"(null)\n"`, and for any other content it
returns `Some` of `c` with all trailing newline characters stripped. -/
theorem c5_device_path_decode (fs : FS) (ns : Namespace) (c : List Char)
    (h : fs.node (ns.path ++ [s2c "device_path"]) = some (Node.file c)) :
    (ns.device_path fs = PResult.ok none ↔ c = s2c "(null)\n") ∧
    (c ≠ s2c "(null)\n" →
      ns.device_path fs = PResult.ok (some (trimEndNewlines c))) := by
  have hread : fs.readToString (ns.path ++ [s2c "device_path"]) =
      Except.ok c := by
    unfold FS.readToString
    rw [h]
  refine ⟨⟨?_, ?_⟩, ?_⟩
  · intro hres
    by_contra hne
    simp only [Namespace.device_path, hread] at hres
    rw [if_neg hne] at hres
    simp at hres
  · intro hc
    simp only [Namespace.device_path, hread]
    rw [if_pos hc]
  · intro hne
    simp only [Namespace.device_path, hread]
    rw [if_neg hne]

/-- The state `fsBase` with `device_path` content `"a\n\n"`. -/
def fsDp2 : FS :=
  fsBase.set (nsA.path ++ [s2c "device_path"]) (Node.file (s2c "a\n\n"))

/-- The state `fsBase` with `device_path` content `"(null)\n"`. -/
def fsDpNull : FS :=
  fsBase.set (nsA.path ++ [s2c "device_path"]) (Node.file (s2c "(null)\n"))

/-- Spec-literal reading of the claim's phrase "the content minus its
trailing newline": drop one final newline when one is present. -/
def specStripOneTrailingNewline (s : List Char) : List Char :=
  if s.getLast? = some '\n' then s.dropLast else s

/-- Counterexample for C5 as stated: on content `"a\n\n"` the getter
returns `Some "a"`, not `Some` of the content minus its (one) trailing
newline, because `trim_end_matches('\n')` strips every trailing newline. -/
theorem c5_counterexample :
    fsDp2.node (nsA.path ++ [s2c "device_path"]) =
      some (Node.file (s2c "a\n\n")) ∧
    s2c "a\n\n" ≠ s2c "(null)\n" ∧
    nsA.device_path fsDp2 = PResult.ok (some (s2c "a")) ∧
    s2c "a" ≠ specStripOneTrailingNewline (s2c "a\n\n") := by
  decide

/-- Witness for C5 (amended) at concrete contents `"(null)\n"` and
`"a\n\n"`. -/
theorem c5_device_path_decode_witness :
    nsA.device_path fsDpNull = PResult.ok none ∧
    nsA.device_path fsDp2 = PResult.ok (some (trimEndNewlines (s2c "a\n\n"))) := by
  constructor
  · exact (c5_device_path_decode fsDpNull nsA (s2c "(null)\n")
      (by decide)).1.mpr rfl
  · exact (c5_device_path_decode fsDp2 nsA (s2c "a\n\n") (by decide)).2
      (by decide)

/-- C10: `set_device_path("(null)")` writes the unescaped sentinel, so the
getter then returns `None`; for every other newline-free string the
set-then-get round trip returns it as a present value. -/
theorem c10_null_sentinel_not_escaped (fs : FS) (ns : Namespace)
    (s : List Char) (hNL : '\n' ∉ s) :
    (∀ fs', ns.set_device_path (s2c "(null)") fs = Except.ok fs' →
      ns.device_path fs' = PResult.ok none) ∧
    (s ≠ s2c "(null)" →
      ∀ fs', ns.set_device_path s fs = Except.ok fs' →
        ns.device_path fs' = PResult.ok (some s)) := by
  constructor
  · intro fs' h
    have hw := fileCreateWrite_ok h
    subst hw
    simp only [Namespace.device_path, FS.readToString_set_self]
    rw [if_pos (by decide)]
  · intro hne fs' h
    have hw := fileCreateWrite_ok h
    subst hw
    simp only [Namespace.device_path, FS.readToString_set_self]
    have hnull : s2c "(null)\n" = s2c "(null)" ++ ['\n'] := by decide
    have hcontent : s ++ ['\n'] ≠ s2c "(null)\n" := by
      intro hh
      rw [hnull] at hh
      exact hne (List.append_cancel_right hh)
    rw [if_neg hcontent]
    rw [trimEndNewlines_snoc hNL]

/-- Result state of writing the sentinel string to `device_path`. -/
def fsDpSetNull : FS := exFS (nsA.set_device_path (s2c "(null)") fsBase) fsBase

/-- Result state of writing `"abc"` to `device_path`. -/
def fsDpSetAbc : FS := exFS (nsA.set_device_path (s2c "abc") fsBase) fsBase

/-- Witness for C10 at the concrete state `fsBase`. -/
theorem c10_null_sentinel_not_escaped_witness :
    nsA.device_path fsDpSetNull = PResult.ok none ∧
    nsA.device_path fsDpSetAbc = PResult.ok (some (s2c "abc")) := by
  constructor
  · exact (c10_null_sentinel_not_escaped fsBase nsA (s2c "abc")
      (by decide)).1 fsDpSetNull rfl
  · exact (c10_null_sentinel_not_escaped fsBase nsA (s2c "abc")
      (by decide)).2 (by decide) fsDpSetAbc rfl

/-- The state `fsBase` with `enable` content `"2\n"`. -/
def fsEnable2 : FS :=
  fsBase.set (nsA.path ++ [s2c "enable"]) (Node.file (s2c "2\n"))

/-- Counterexample for C3 as stated: on `enable` content `"2\n"`, which is
neither `"1\n"` nor `"0\n"`, the read succeeds with `Ok false` instead of
surfacing a failure: the content is silently coerced. -/
theorem c3_counterexample :
    fsEnable2.node (nsA.path ++ [s2c "enable"]) =
      some (Node.file (s2c "2\n")) ∧
    s2c "2\n" ≠ s2c "1\n" ∧ s2c "2\n" ≠ s2c "0\n" ∧
    nsA.enable fsEnable2 = Except.ok false := by
  decide

/-- C3 (amended): the boolean reads decode `"1\n"` to `true` and `"0\n"` to
`false`, but do not reject other contents: `Namespace::enable` returns
`Ok (v == 1)` for any content whose trimmed form parses as a `u8` value `v`
and fails (with a `Parse` error) only when that parse fails, while
`Subsystem::attr_allow_any_host` compares the raw content with `"1\n"` and
returns `Ok false` for every other content. -/
theorem c3_bool_read_accepts_more (fs : FS) (ns : Namespace)
    (sub : Subsystem) (c c2 : List Char)
    (hc : fs.node (ns.path ++ [s2c "enable"]) = some (Node.file c))
    (hc2 : fs.node (sub.path ++ [s2c "attr_allow_any_host"]) =
      some (Node.file c2)) :
    (c = s2c "1\n" → ns.enable fs = Except.ok true) ∧
    (c = s2c "0\n" → ns.enable fs = Except.ok false) ∧
    (∀ v, rustParseBounded 256 (rustTrim c) = some v →
      ns.enable fs = Except.ok (v == 1)) ∧
    (rustParseBounded 256 (rustTrim c) = none →
      ns.enable fs = Except.error ReadErr.parse) ∧
    sub.attr_allow_any_host fs = PResult.ok (c2 == s2c "1\n") := by
  have hread : fs.readToString (ns.path ++ [s2c "enable"]) = Except.ok c := by
    unfold FS.readToString
    rw [hc]
  have hread2 : fs.readToString (sub.path ++ [s2c "attr_allow_any_host"]) =
      Except.ok c2 := by
    unfold FS.readToString
    rw [hc2]
  have hgen : ∀ v, rustParseBounded 256 (rustTrim c) = some v →
      ns.enable fs = Except.ok (v == 1) := by
    intro v hv
    simp only [Namespace.enable, readAttr, hread, hv, Except.map]
  refine ⟨?_, ?_, hgen, ?_, ?_⟩
  · intro h1
    subst h1
    have := hgen 1 (by decide)
    simpa using this
  · intro h0
    subst h0
    have := hgen 0 (by decide)
    simpa using this
  · intro h0
    simp only [Namespace.enable, readAttr, hread, h0, Except.map]
  · simp only [Subsystem.attr_allow_any_host, hread2]

/-- The state `fsBase` with `enable` content `"1\n"` and
`attr_allow_any_host` content `"0\n"`. -/
def fsBool : FS :=
  (fsBase.set (nsA.path ++ [s2c "enable"]) (Node.file (s2c "1\n"))).set
    (subA.path ++ [s2c "attr_allow_any_host"]) (Node.file (s2c "0\n"))

/-- Witness for C3 (amended) at concrete contents. -/
theorem c3_bool_read_accepts_more_witness :
    nsA.enable fsBool = Except.ok true ∧
    subA.attr_allow_any_host fsBool = PResult.ok false := by
  have h := c3_bool_read_accepts_more fsBool nsA subA (s2c "1\n")
    (s2c "0\n") (by decide) (by decide)
  refine ⟨h.1 rfl, ?_⟩
  have h5 := h.2.2.2.2
  rw [show (s2c "0\n" == s2c "1\n") = false from by decide] at h5
  exact h5

/-- Result of writing the string `" a"` to `device_nguid` in `fsBase`. -/
def fsC4ce : FS := exFS (nsA.set_device_nguid (s2c " a") fsBase) fsBase

/-- Counterexample for C4 as stated: the newline-free string `" a"` does
not round-trip through `set_device_nguid` / `device_nguid`, because the
generic read helper trims leading and trailing whitespace. -/
theorem c4_counterexample :
    nsA.set_device_nguid (s2c " a") fsBase = Except.ok fsC4ce ∧
    '\n' ∉ s2c " a" ∧
    nsA.device_nguid fsC4ce = Except.ok (s2c "a") ∧
    s2c "a" ≠ s2c " a" := by
  decide

/-- C4 (amended): set-then-get returns the string exactly, for every
newline-free string, provided additionally that the string has no leading
or trailing whitespace for the six getters that go through the trimming
read helper (`device_nguid`, `device_uuid`, and the four Port address
attributes); `attr_model` and `attr_serial` only strip trailing newlines,
so every newline-free string round-trips there. -/
theorem c4_string_roundtrip (fs : FS) (ns : Namespace) (sub : Subsystem)
    (port : Port) (s t : List Char)
    (hs1 : trimStart s = s) (hs2 : trimEnd s = s) (ht : '\n' ∉ t) :
    (∀ fs', ns.set_device_nguid s fs = Except.ok fs' →
      ns.device_nguid fs' = Except.ok s) ∧
    (∀ fs', ns.set_device_uuid s fs = Except.ok fs' →
      ns.device_uuid fs' = Except.ok s) ∧
    (∀ fs', port.set_addr_adrfam s fs = Except.ok fs' →
      port.addr_adrfam fs' = Except.ok s) ∧
    (∀ fs', port.set_addr_traddr s fs = Except.ok fs' →
      port.addr_traddr fs' = Except.ok s) ∧
    (∀ fs', port.set_addr_trsvcid s fs = Except.ok fs' →
      port.addr_trsvcid fs' = Except.ok s) ∧
    (∀ fs', port.set_addr_trtype s fs = Except.ok fs' →
      port.addr_trtype fs' = Except.ok s) ∧
    (∀ fs', sub.set_attr_model t fs = Except.ok fs' →
      sub.attr_model fs' = PResult.ok t) ∧
    (∀ fs', sub.set_attr_serial t fs = Except.ok fs' →
      sub.attr_serial fs' = PResult.ok t) := by
  refine ⟨?_, ?_, ?_, ?_, ?_, ?_, ?_, ?_⟩ <;>
    (intro fs' h
     have hw := fileCreateWrite_ok h
     subst hw
     simp only [Namespace.device_nguid, Namespace.device_uuid,
       Port.addr_adrfam, Port.addr_traddr, Port.addr_trsvcid,
       Port.addr_trtype, Subsystem.attr_model, Subsystem.attr_serial,
       readAttr, FS.readToString_set_self]
     first
     | rw [rustTrim_snoc_newline hs1 hs2]
     | rw [trimEndNewlines_snoc ht])

/-- Result of writing `"abc"` to `device_nguid` in `fsBase`. -/
def fsSetNguid : FS := exFS (nsA.set_device_nguid (s2c "abc") fsBase) fsBase

/-- Result of writing `"abc"` to `device_uuid` in `fsBase`. -/
def fsSetUuid : FS := exFS (nsA.set_device_uuid (s2c "abc") fsBase) fsBase

/-- Result of writing `"abc"` to `addr_adrfam` in `fsBase`. -/
def fsSetAdrfam : FS := exFS (portA.set_addr_adrfam (s2c "abc") fsBase) fsBase

/-- Result of writing `"abc"` to `addr_traddr` in `fsBase`. -/
def fsSetTraddr : FS := exFS (portA.set_addr_traddr (s2c "abc") fsBase) fsBase

/-- Result of writing `"abc"` to `addr_trsvcid` in `fsBase`. -/
def fsSetTrsvcid : FS :=
  exFS (portA.set_addr_trsvcid (s2c "abc") fsBase) fsBase

/-- Result of writing `"abc"` to `addr_trtype` in `fsBase`. -/
def fsSetTrtype : FS := exFS (portA.set_addr_trtype (s2c "abc") fsBase) fsBase

/-- Result of writing `" x "` to `attr_model` in `fsBase`. -/
def fsSetModel : FS := exFS (subA.set_attr_model (s2c " x ") fsBase) fsBase

/-- Result of writing `" x "` to `attr_serial` in `fsBase`. -/
def fsSetSerial : FS := exFS (subA.set_attr_serial (s2c " x ") fsBase) fsBase

/-- Witness for C4 (amended) at the concrete strings `"abc"` (trim-free)
and `" x "` (newline-free, kept verbatim by `attr_model`/`attr_serial`). -/
theorem c4_string_roundtrip_witness :
    nsA.device_nguid fsSetNguid = Except.ok (s2c "abc") ∧
    nsA.device_uuid fsSetUuid = Except.ok (s2c "abc") ∧
    portA.addr_adrfam fsSetAdrfam = Except.ok (s2c "abc") ∧
    portA.addr_traddr fsSetTraddr = Except.ok (s2c "abc") ∧
    portA.addr_trsvcid fsSetTrsvcid = Except.ok (s2c "abc") ∧
    portA.addr_trtype fsSetTrtype = Except.ok (s2c "abc") ∧
    subA.attr_model fsSetModel = PResult.ok (s2c " x ") ∧
    subA.attr_serial fsSetSerial = PResult.ok (s2c " x ") := by
  have h := c4_string_roundtrip fsBase nsA subA portA (s2c "abc")
    (s2c " x ") (by decide) (by decide) (by decide)
  exact ⟨h.1 _ rfl, h.2.1 _ rfl, h.2.2.1 _ rfl, h.2.2.2.1 _ rfl,
    h.2.2.2.2.1 _ rfl, h.2.2.2.2.2.1 _ rfl, h.2.2.2.2.2.2.1 _ rfl,
    h.2.2.2.2.2.2.2 _ rfl⟩

/-- C7: the integer set-then-get round trip returns the value exactly, for
`ana_grpid` (32-bit) and `attr_cntlid_min`/`attr_cntlid_max` (16-bit). -/
theorem c7_int_roundtrip (fs : FS) (ns : Namespace) (sub : Subsystem)
    (n m k : Nat) (h32 : n < 4294967296) (h16m : m < 65536)
    (h16k : k < 65536) :
    (∀ fs', ns.set_ana_grpid n fs = Except.ok fs' →
      ns.ana_grpid fs' = PResult.ok n) ∧
    (∀ fs', sub.set_attr_cntlid_min m fs = Except.ok fs' →
      sub.attr_cntlid_min fs' = PResult.ok m) ∧
    (∀ fs', sub.set_attr_cntlid_max k fs = Except.ok fs' →
      sub.attr_cntlid_max fs' = PResult.ok k) := by
  refine ⟨?_, ?_, ?_⟩
  · intro fs' h
    have hw := fileCreateWrite_ok h
    subst hw
    simp only [Namespace.ana_grpid, FS.readToString_set_self]
    rw [trimEndNewlines_snoc natDigitChars_ne_newline,
      rustParseBounded_natDigitChars h32]
  · intro fs' h
    have hw := fileCreateWrite_ok h
    subst hw
    simp only [Subsystem.attr_cntlid_min, FS.readToString_set_self]
    rw [trimEndNewlines_snoc natDigitChars_ne_newline,
      rustParseBounded_natDigitChars h16m]
  · intro fs' h
    have hw := fileCreateWrite_ok h
    subst hw
    simp only [Subsystem.attr_cntlid_max, FS.readToString_set_self]
    rw [trimEndNewlines_snoc natDigitChars_ne_newline,
      rustParseBounded_natDigitChars h16k]

/-- Result of writing `4294967295` to `ana_grpid` in `fsBase`. -/
def fsSetGrpid : FS := exFS (nsA.set_ana_grpid 4294967295 fsBase) fsBase

/-- Result of writing `0` to `attr_cntlid_min` in `fsBase`. -/
def fsSetClMin : FS := exFS (subA.set_attr_cntlid_min 0 fsBase) fsBase

/-- Result of writing `65535` to `attr_cntlid_max` in `fsBase`. -/
def fsSetClMax : FS := exFS (subA.set_attr_cntlid_max 65535 fsBase) fsBase

/-- Witness for C7 at the extreme in-range values. -/
theorem c7_int_roundtrip_witness :
    nsA.ana_grpid fsSetGrpid = PResult.ok 4294967295 ∧
    subA.attr_cntlid_min fsSetClMin = PResult.ok 0 ∧
    subA.attr_cntlid_max fsSetClMax = PResult.ok 65535 := by
  have h := c7_int_roundtrip fsBase nsA subA 4294967295 0 65535
    (by decide) (by decide) (by decide)
  exact ⟨h.1 _ rfl, h.2.1 _ rfl, h.2.2 _ rfl⟩

theorem createDir_ok {fs fs' : FS} {p : Path}
    (h : fs.createDir p = Except.ok fs') : fs' = fs.set p Node.dir := by
  unfold FS.createDir at h
  split at h
  · exact Except.noConfusion h
  · split at h
    · exact (Except.ok.inj h).symm
    · exact Except.noConfusion h

theorem removeDir_ok {fs fs' : FS} {p : Path}
    (h : fs.removeDir p = Except.ok fs') : fs' = fs.remove p := by
  unfold FS.removeDir at h
  split at h
  · exact Except.noConfusion h
  · split at h
    · exact Except.noConfusion h
    · exact (Except.ok.inj h).symm
  · exact Except.noConfusion h

theorem createDirAll_ok_node {fs fs' : FS} {p : Path}
    (h : fs.createDirAll p = Except.ok fs') :
    fs'.node p = some Node.dir := by
  unfold FS.createDirAll at h
  split at h
  · next heq =>
    rw [← Except.ok.inj h]
    exact heq
  · exact Except.noConfusion h
  · rw [← Except.ok.inj h]
    exact FS.node_set_self _ _ _

theorem subsystemNew_ok {nqn : List Char} {fs fsA : FS} {s : Subsystem}
    (h : Subsystem.new nqn fs = Except.ok (s, fsA)) :
    fsA = fs.set (Subsystem.path ⟨nqn⟩) Node.dir := by
  unfold Subsystem.new at h
  split at h
  · next f heq =>
    have h2 : f = fsA := congrArg Prod.snd (Except.ok.inj h)
    rw [h2] at heq
    exact createDir_ok heq
  · exact Except.noConfusion h

theorem hostNew_ok {nqn : List Char} {fs fsE : FS} {ho : Host}
    (h : Host.new nqn fs = Except.ok (ho, fsE)) :
    fsE = fs.set (Host.path ⟨nqn⟩) Node.dir := by
  unfold Host.new at h
  split at h
  · next f heq =>
    have h2 : f = fsE := congrArg Prod.snd (Except.ok.inj h)
    rw [h2] at heq
    exact createDir_ok heq
  · exact Except.noConfusion h

theorem portNew_ok {id : Nat} {fs fsC : FS} {po : Port}
    (h : Port.new id fs = Except.ok (po, fsC)) :
    fsC.node (Port.path ⟨id⟩) = some Node.dir := by
  unfold Port.new at h
  split at h
  · next f heq =>
    have h2 : f = fsC := congrArg Prod.snd (Except.ok.inj h)
    rw [h2] at heq
    exact createDirAll_ok_node heq
  · exact Except.noConfusion h

/-- C8: for each of Subsystem, Port and Host, `exists` returns `true`
immediately after a successful `new` of that identity and `false`
immediately after a successful `delete` of that identity. -/
theorem c8_exists_after_new_delete (fs : FS) (n1 n2 q1 q2 : List Char)
    (p1 p2 : Nat) (s : Subsystem) (po : Port) (ho : Host)
    (fsA fsB fsC fsD fsE fsF : FS)
    (hA : Subsystem.new n1 fs = Except.ok (s, fsA))
    (hB : Subsystem.delete n2 fs = Except.ok fsB)
    (hC : Port.new p1 fs = Except.ok (po, fsC))
    (hD : Port.delete p2 fs = Except.ok fsD)
    (hE : Host.new q1 fs = Except.ok (ho, fsE))
    (hF : Host.delete q2 fs = Except.ok fsF) :
    Subsystem.existsFS n1 fsA = Except.ok true ∧
    Subsystem.existsFS n2 fsB = Except.ok false ∧
    Port.existsFS p1 fsC = Except.ok true ∧
    Port.existsFS p2 fsD = Except.ok false ∧
    Host.existsFS q1 fsE = Except.ok true ∧
    Host.existsFS q2 fsF = Except.ok false := by
  refine ⟨?_, ?_, ?_, ?_, ?_, ?_⟩
  · rw [subsystemNew_ok hA]
    unfold Subsystem.existsFS FS.tryE
    rw [FS.node_set_self]
    rfl
  · have hB' : fs.removeDir (Subsystem.path ⟨n2⟩) = Except.ok fsB := hB
    rw [removeDir_ok hB']
    unfold Subsystem.existsFS FS.tryE
    rw [FS.node_remove_self]
    rfl
  · unfold Port.existsFS FS.tryE
    rw [portNew_ok hC]
    rfl
  · have hD' : fs.removeDir (Port.path ⟨p2⟩) = Except.ok fsD := hD
    rw [removeDir_ok hD']
    unfold Port.existsFS FS.tryE
    rw [FS.node_remove_self]
    rfl
  · rw [hostNew_ok hE]
    unfold Host.existsFS FS.tryE
    rw [FS.node_set_self]
    rfl
  · have hF' : fs.removeDir (Host.path ⟨q2⟩) = Except.ok fsF := hF
    rw [removeDir_ok hF']
    unfold Host.existsFS FS.tryE
    rw [FS.node_remove_self]
    rfl

/-- Extract the successor state of a lifecycle step that also returns a
handle. -/
def exFSP {α : Type} (r : Except IOErrorKind (α × FS)) (d : FS) : FS :=
  match r with
  | Except.ok (_, f) => f
  | Except.error _ => d

/-- Result of `Subsystem::new("nqn.b")` on `fsBase`. -/
def fsNewSub : FS := exFSP (Subsystem.new nqB fsBase) fsBase

/-- Result of `Subsystem::delete("nqn.del")` on `fsBase`. -/
def fsDelSub : FS := exFS (Subsystem.delete (s2c "nqn.del") fsBase) fsBase

/-- Result of `Port::new(7)` on `fsBase`. -/
def fsNewPort : FS := exFSP (Port.new 7 fsBase) fsBase

/-- Result of `Port::delete(1)` on `fsBase`. -/
def fsDelPort : FS := exFS (Port.delete 1 fsBase) fsBase

/-- Result of `Host::new("h1")` on `fsBase`. -/
def fsNewHost : FS := exFSP (Host.new (s2c "h1") fsBase) fsBase

/-- Result of `Host::delete("h2")` on `fsBase`. -/
def fsDelHost : FS := exFS (Host.delete (s2c "h2") fsBase) fsBase

/-- Witness for C8 at the concrete state `fsBase`. -/
theorem c8_exists_after_new_delete_witness :
    Subsystem.existsFS nqB fsNewSub = Except.ok true ∧
    Subsystem.existsFS (s2c "nqn.del") fsDelSub = Except.ok false ∧
    Port.existsFS 7 fsNewPort = Except.ok true ∧
    Port.existsFS 1 fsDelPort = Except.ok false ∧
    Host.existsFS (s2c "h1") fsNewHost = Except.ok true ∧
    Host.existsFS (s2c "h2") fsDelHost = Except.ok false :=
  c8_exists_after_new_delete fsBase nqB (s2c "nqn.del") (s2c "h1")
    (s2c "h2") 7 1 ⟨nqB⟩ ⟨7⟩ ⟨s2c "h1"⟩ fsNewSub fsDelSub fsNewPort
    fsDelPort fsNewHost fsDelHost rfl rfl rfl rfl rfl rfl

end Nvmet
